import Mathlib

/-!
Verification of the crypto-prediction tournament backend (`src/main.py`).

The embedding follows the source file `main.py`. The modules `database`
(`db`, `create_document`, `get_documents`) and `schemas` (`Tournament`,
`Prediction`) are imported by `main.py` but their files are not part of
the sources; those definitions are modelled from the specification
(marked `Modelled from the spec:` in their doc comments).

Document fields in the schema-less store may be missing, null, or
present; we model a field of value type `α` as `Option (Option α)`:
`none` = the key is missing, `some none` = the key maps to null,
`some (some v)` = the key maps to the value `v`.
-/

/-- A stored document field: missing, null, or a value. -/
abbrev DField (α : Type) : Type := Option (Option α)

/-- Python's `d.get(key)`: `None` both when the key is missing and when the
stored value is null. -/
def DField.pyGet {α : Type} (f : DField α) : Option α := f.join

/-- Timestamps. The claims depend only on which timestamp is rendered, so a
timestamp is abstracted to a natural number. -/
abbrev Timestamp := Nat

/-- Modelled from the spec: ISO-8601 rendering of a timestamp
(`datetime.isoformat()` in the source), abstracted to an injective
rendering of the abstract timestamp. -/
def Timestamp.isoformat (t : Timestamp) : String := "1970-01-01T00:00:" ++ toString t

/-- A hexadecimal character, as accepted by BSON ObjectId parsing. -/
def isHexChar (c : Char) : Bool :=
  c.isDigit || ('a' ≤ c && c ≤ 'f') || ('A' ≤ c && c ≤ 'F')

/-- Validity of an identifier string: `ObjectId(s)` succeeds exactly when it is 24 hexadecimal
characters (`bson.ObjectId` in the source). -/
def isValidObjectId (s : String) : Bool :=
  s.length == 24 && s.toList.all isHexChar

/-- Lower-casing of a hex string (ObjectId comparison is on the decoded
bytes, so hex case is immaterial; the canonical form is lower case). -/
def lowerHex (s : String) : String := ⟨s.toList.map Char.toLower⟩

/-- Parsing by `ObjectId(s)`, as a partial function: the canonical (lower-case) 24-hex
form when the string is valid, otherwise failure. -/
def parseObjectId (s : String) : Option String :=
  if isValidObjectId s then some (lowerHex s) else none

/-- The hex digit character for `n < 16` (lower case). -/
def hexDigit (n : Nat) : Char :=
  if n < 10 then Char.ofNat (48 + n) else Char.ofNat (87 + n)

/-- Fixed-width big-endian hex rendering of a natural number. -/
def hexN : Nat → Nat → List Char
  | 0, _ => []
  | k + 1, n => hexN k (n / 16) ++ [hexDigit (n % 16)]

/-- Modelled from the spec: the store-assigned identifier for the `n`-th
inserted document, in the store's 24-hex ObjectId format. -/
def oidOf (n : Nat) : String := ⟨hexN 24 n⟩

/-- A stored `tournament` document. `oid` is the store-assigned `_id`. -/
structure TournamentDoc where
  oid : String
  title : DField String
  asset : DField String
  start_time : DField Timestamp
  end_time : DField Timestamp
  entry_fee : DField ℚ
  prize_pool : DField ℚ
  status : DField String
deriving DecidableEq, Repr

/-- A stored `prediction` document. -/
structure PredictionDoc where
  oid : String
  tournament_id : DField String
  user : DField String
  direction : DField String
  amount : DField ℚ
  created_at : DField Timestamp
deriving DecidableEq, Repr

/-- The document store: the two collections used by the API and the
counter from which the next ObjectId is assigned. -/
structure DB where
  tournaments : List TournamentDoc
  predictions : List PredictionDoc
  counter : Nat
deriving DecidableEq, Repr

/-- The empty store. -/
def emptyDB : DB := ⟨[], [], 0⟩

/-- Modelled from the spec: the inbound `Tournament` payload (`schemas.py`
is not among the sources). Fields per spec §3; `status` may be omitted and
then the stored document has no `status` key, since the spec says the
default applies only at read-projection time if absent. -/
structure Tournament where
  title : String
  asset : String
  start_time : Timestamp
  end_time : Timestamp
  entry_fee : ℚ
  prize_pool : ℚ
  status : Option String
deriving DecidableEq, Repr

/-- Spec §3 validity of a `Tournament` payload: non-empty text fields and
non-negative amounts. -/
def Tournament.valid (t : Tournament) : Prop :=
  t.title ≠ "" ∧ t.asset ≠ "" ∧ 0 ≤ t.entry_fee ∧ 0 ≤ t.prize_pool

instance (t : Tournament) : Decidable t.valid := by
  unfold Tournament.valid; infer_instance

/-- Modelled from the spec: the inbound `Prediction` payload
(`schemas.py` is not among the sources). Fields per spec §3; `created_at`
is caller-provided or absent (spec §3 open question). -/
structure Prediction where
  tournament_id : String
  user : String
  direction : String
  amount : ℚ
  created_at : Option Timestamp
deriving DecidableEq, Repr

/-- Modelled from the spec: `createDocument("tournament", t)` serializes
the validated model field-for-field, no renaming (spec §4.2); an omitted
`status` is absent in the document. -/
def docOfTournament (oid : String) (t : Tournament) : TournamentDoc :=
  { oid := oid
    title := some (some t.title)
    asset := some (some t.asset)
    start_time := some (some t.start_time)
    end_time := some (some t.end_time)
    entry_fee := some (some t.entry_fee)
    prize_pool := some (some t.prize_pool)
    status := t.status.map some }

/-- Modelled from the spec: `createDocument("prediction", p)` serializes
the validated model field-for-field, no renaming (spec §4.2). -/
def docOfPrediction (oid : String) (p : Prediction) : PredictionDoc :=
  { oid := oid
    tournament_id := some (some p.tournament_id)
    user := some (some p.user)
    direction := some (some p.direction)
    amount := some (some p.amount)
    created_at := p.created_at.map some }

/-- Repository call `create_document("tournament", t)`: insert, return the new id. -/
def DB.insertTournament (db : DB) (t : Tournament) : String × DB :=
  let oid := oidOf db.counter
  (oid, { db with tournaments := db.tournaments ++ [docOfTournament oid t]
                  counter := db.counter + 1 })

/-- Repository call `create_document("prediction", p)`: insert, return the new id. -/
def DB.insertPrediction (db : DB) (p : Prediction) : String × DB :=
  let oid := oidOf db.counter
  (oid, { db with predictions := db.predictions ++ [docOfPrediction oid p]
                  counter := db.counter + 1 })

/-- An HTTP error response: status code and detail message. -/
structure Err where
  code : Nat
  detail : String
deriving DecidableEq, Repr

/-- The response shape `TournamentOut` of `main.py`. -/
structure TournamentOut where
  id : String
  title : String
  asset : String
  start_time : String
  end_time : String
  entry_fee : ℚ
  prize_pool : ℚ
  status : String
deriving DecidableEq, Repr

/-- The dict built per prediction document in `list_predictions`; values
other than `id` and `amount` may be `None`. -/
structure PredictionOut where
  id : String
  tournament_id : Option String
  user : Option String
  direction : Option String
  amount : ℚ
  created_at : Option String
deriving DecidableEq, Repr

/-- Message of Python's `TypeError` raised by `float(None)`. -/
def floatNoneMsg : String :=
  "float() argument must be a string or a real number, not 'NoneType'"

/-- Message standing for a pydantic validation error on a `None` value for
a required `str` field of `TournamentOut` (the exact text is framework
internal; only its occurrence matters to the claims). -/
def validationErrMsg : String := "validation error for TournamentOut"

/-- Reading a numeric field with `float(d.get(key, 0))`: a missing key defaults to
`0`; a null value reaches `float(None)`, which raises `TypeError`. -/
def getNum (f : DField ℚ) : Except String ℚ :=
  match f with
  | none => .ok 0
  | some none => .error floatNoneMsg
  | some (some v) => .ok v

/-- A required `str` field of `TournamentOut` fed from `d.get(key)`:
a missing key or a null value gives `None`, which fails pydantic
validation. -/
def getStr (f : DField String) : Except String String :=
  match f with
  | some (some s) => .ok s
  | _ => .error validationErrMsg

/-- Reading `d.get("status", "upcoming")` into the required `str` field
`status`: a missing key defaults to `"upcoming"`, but a null value gives
`None` and fails validation. -/
def getStatus (f : DField String) : Except String String :=
  match f with
  | none => .ok "upcoming"
  | some none => .error validationErrMsg
  | some (some s) => .ok s

/-- Reading a timestamp field with `d.get(key).isoformat() if d.get(key) else ""`:
missing or null is falsy and gives `""`; a timestamp (always truthy) is
rendered with `isoformat`. -/
def timeStr (f : DField Timestamp) : String :=
  match f with
  | some (some t) => t.isoformat
  | _ => ""

/-- Construction of one `TournamentOut` from a stored document, as in the
loop body of `list_tournaments`. Python evaluates the keyword arguments
first — `float()` raises there on a null numeric — and pydantic validates
the `str` fields afterwards. -/
def projectTournament (d : TournamentDoc) : Except String TournamentOut := do
  let fee ← getNum d.entry_fee
  let pool ← getNum d.prize_pool
  let title ← getStr d.title
  let asset ← getStr d.asset
  let st ← getStatus d.status
  return { id := d.oid, title := title, asset := asset
           start_time := timeStr d.start_time, end_time := timeStr d.end_time
           entry_fee := fee, prize_pool := pool, status := st }

/-- Construction of one response dict from a stored document, as in the
comprehension of `list_predictions`: plain `d.get` for the text fields
(null when missing), `float(d.get("amount", 0))` for the amount, and
`isoformat` -or- `None` for `created_at`. -/
def projectPrediction (d : PredictionDoc) : Except String PredictionOut := do
  let amt ← getNum d.amount
  return { id := d.oid, tournament_id := d.tournament_id.pyGet
           user := d.user.pyGet, direction := d.direction.pyGet
           amount := amt
           created_at := (d.created_at.pyGet).map Timestamp.isoformat }

/-- The projection loop of the list handlers: build the outputs in order,
stopping at the first document whose projection raises (as the Python
`for` loop / comprehension does). -/
def exceptMap {α β : Type} (f : α → Except String β) : List α → Except String (List β)
  | [] => .ok []
  | d :: rest => do
    let o ← f d
    let os ← exceptMap f rest
    return o :: os

/-- The Mongo filter built by `list_tournaments`:
`{"status": status} if status else {}` — both `None` and the empty string
are falsy, giving the empty filter. -/
def filter_q (status : Option String) : Option String :=
  match status with
  | some s => if s = "" then none else some s
  | none => none

/-- Whether a stored tournament document matches the filter: the empty
filter matches everything; `{"status": v}` matches documents whose
`status` value equals `v`. -/
def matchesFilter (f : Option String) (d : TournamentDoc) : Bool :=
  match f with
  | none => true
  | some v => d.status == some (some v)

/-- The Mongo filter built by `list_predictions`:
`{"tournament_id": tournament_id} if tournament_id else {}`. -/
def filter_p (tid : Option String) : Option String :=
  match tid with
  | some s => if s = "" then none else some s
  | none => none

/-- Whether a stored prediction document matches the filter of
`list_predictions`. -/
def matchesFilterP (f : Option String) (d : PredictionDoc) : Bool :=
  match f with
  | none => true
  | some v => d.tournament_id == some (some v)

/-- Handler `GET /api/tournaments` (`list_tournaments` in `main.py`):
build the filter, fetch the matching documents, project each; any raised
exception becomes a 500 with the exception text as detail. -/
def list_tournaments (db : DB) (status : Option String) : Except Err (List TournamentOut) :=
  match exceptMap projectTournament (db.tournaments.filter (matchesFilter (filter_q status))) with
  | .ok outs => .ok outs
  | .error msg => .error ⟨500, msg⟩

/-- Handler `GET /api/predictions` (`list_predictions` in `main.py`). -/
def list_predictions (db : DB) (tid : Option String) : Except Err (List PredictionOut) :=
  match exceptMap projectPrediction (db.predictions.filter (matchesFilterP (filter_p tid))) with
  | .ok outs => .ok outs
  | .error msg => .error ⟨500, msg⟩

/-- Handler `POST /api/tournaments` (`create_tournament` in `main.py`):
insert the validated payload, return the new id. -/
def create_tournament (db : DB) (t : Tournament) : Except Err String × DB :=
  let (i, db') := db.insertTournament t
  (.ok i, db')

/-- Handler `POST /api/predictions` (`create_prediction` in `main.py`):
parse `tournament_id` as an ObjectId (400 on failure), look the
tournament up with `find_one` (404 when absent), then insert. The store
is returned alongside the response: it is modified only by the insert. -/
def create_prediction (db : DB) (p : Prediction) : Except Err String × DB :=
  match parseObjectId p.tournament_id with
  | none => (.error ⟨400, "Invalid tournament id"⟩, db)
  | some oid =>
    match db.tournaments.find? (fun t => t.oid == oid) with
    | none => (.error ⟨404, "Tournament not found"⟩, db)
    | some _ =>
      let (i, db') := db.insertPrediction p
      (.ok i, db')

/-- The handle `db` as seen by the `/test` handler: its `name` attribute
when present, and the outcome of `list_collection_names()` (a list of
names, or a raised exception's text). -/
structure DBHandle where
  name : Option String
  collectionNames : Except String (List String)

/-- The response dict of the `/test` handler. -/
structure TestResponse where
  backend : String
  database : String
  database_url : Option String
  database_name : Option String
  connection_status : String
  collections : List String
deriving DecidableEq, Repr

/-- Handler `GET /test` (`test_database` in `main.py`): starts from the
default response, upgrades it when the handle is set, fetches at most the
first 10 collection names, and turns an exception from the metadata call
into a warning string truncated to 80 characters. The outer
`except` (the third, generic level) is unreachable in this model because
every remaining operation is total. -/
def test_database (db : Option DBHandle) (database_url_set : Bool) : TestResponse :=
  match db with
  | none =>
    { backend := "✅ Running", database := "⚠️  Available but not initialized"
      database_url := none, database_name := none
      connection_status := "Not Connected", collections := [] }
  | some h =>
    let url := some (if database_url_set then "✅ Set" else "❌ Not Set")
    let nm := some (h.name.getD "✅ Connected")
    match h.collectionNames with
    | .ok cs =>
      { backend := "✅ Running", database := "✅ Connected & Working"
        database_url := url, database_name := nm
        connection_status := "Connected", collections := cs.take 10 }
    | .error e =>
      { backend := "✅ Running"
        database := "⚠️  Connected but Error: " ++ e.take 80
        database_url := url, database_name := nm
        connection_status := "Connected", collections := [] }

/-- A concrete, well-formed ObjectId string. -/
def sampleOid : String := "0123456789abcdef01234567"

/-- A concrete stored tournament document with all fields present. -/
def sampleTournamentDoc : TournamentDoc :=
  { oid := sampleOid
    title := some (some "BTC Weekly"), asset := some (some "BTC")
    start_time := some (some 100), end_time := some (some 200)
    entry_fee := some (some 10), prize_pool := some (some 1000)
    status := some (some "upcoming") }

/-- A concrete stored tournament document whose `status` is `"active"`. -/
def activeTournamentDoc : TournamentDoc :=
  { oid := "aaaaaaaaaaaaaaaaaaaaaaaa"
    title := some (some "ETH Daily"), asset := some (some "ETH")
    start_time := some (some 1), end_time := some (some 2)
    entry_fee := some (some 3), prize_pool := some (some 4)
    status := some (some "active") }

/-- A concrete stored tournament document whose `entry_fee` is null. -/
def nullFeeDoc : TournamentDoc :=
  { oid := "bbbbbbbbbbbbbbbbbbbbbbbb"
    title := some (some "SOL Cup"), asset := some (some "SOL")
    start_time := none, end_time := none
    entry_fee := some none, prize_pool := some (some 4)
    status := none }

/-- A concrete stored tournament document with a missing `title`. -/
def noTitleDoc : TournamentDoc :=
  { oid := "cccccccccccccccccccccccc"
    title := none, asset := some (some "DOGE")
    start_time := none, end_time := none
    entry_fee := some (some 1), prize_pool := some (some 2)
    status := some (some "upcoming") }

/-- A store holding just `sampleTournamentDoc`. -/
def sampleDB : DB := ⟨[sampleTournamentDoc], [], 1⟩

/-- A store holding an `"upcoming"` and an `"active"` tournament. -/
def mixedDB : DB := ⟨[sampleTournamentDoc, activeTournamentDoc], [], 2⟩

/-- A store holding just `nullFeeDoc`. -/
def nullFeeDB : DB := ⟨[nullFeeDoc], [], 1⟩

/-- A store holding just `noTitleDoc`. -/
def noTitleDB : DB := ⟨[noTitleDoc], [], 1⟩

/-- A concrete prediction payload referencing `sampleOid`. -/
def samplePrediction : Prediction :=
  { tournament_id := sampleOid, user := "alice", direction := "up"
    amount := 5, created_at := some 300 }

/-- A concrete tournament payload with `status` supplied. -/
def samplePayload : Tournament :=
  { title := "BTC Weekly", asset := "BTC", start_time := 100, end_time := 200
    entry_fee := 10, prize_pool := 1000, status := some "upcoming" }

/-- A concrete stored prediction document with all fields present. -/
def samplePredictionDoc : PredictionDoc :=
  { oid := "dddddddddddddddddddddddd"
    tournament_id := some (some sampleOid), user := some (some "bob")
    direction := some (some "down"), amount := none, created_at := none }

/-- Success of `exceptMap` pairs inputs with outputs:
success means every input maps to the corresponding output. -/
theorem exceptMap_ok_forall₂ {α β : Type} (f : α → Except String β) :
    ∀ (l : List α) (l' : List β), exceptMap f l = .ok l' →
      List.Forall₂ (fun a b => f a = .ok b) l l' := by
  intro l
  induction l with
  | nil =>
    intro l' h
    simp only [exceptMap] at h
    cases h
    exact List.Forall₂.nil
  | cons x xs ih =>
    intro l' h
    simp only [exceptMap] at h
    cases hfx : f x with
    | error e => rw [hfx] at h; exact absurd h (by simp [Bind.bind, Except.bind])
    | ok b =>
      rw [hfx] at h
      cases hxs : exceptMap f xs with
      | error e => rw [hxs] at h; exact absurd h (by simp [Bind.bind, Except.bind])
      | ok bs =>
        rw [hxs] at h
        simp only [Bind.bind, Except.bind, pure, Except.pure, Except.ok.injEq] at h
        cases h
        exact List.Forall₂.cons hfx (ih bs hxs)

/-- If some element of the list fails to project, the whole `exceptMap`
fails (with the first failing element's message). -/
theorem exceptMap_error_of_mem {α β : Type} (f : α → Except String β)
    {l : List α} {a : α} {e : String} (hmem : a ∈ l) (hfa : f a = .error e) :
    ∃ msg, exceptMap f l = .error msg := by
  induction l with
  | nil => cases hmem
  | cons x xs ih =>
    cases hfx : f x with
    | error e₀ => exact ⟨e₀, by simp only [exceptMap, hfx]; rfl⟩
    | ok b =>
      rcases List.mem_cons.mp hmem with rfl | hmem'
      · rw [hfx] at hfa; cases hfa
      · rcases ih hmem' with ⟨msg, hmsg⟩
        exact ⟨msg, by simp only [exceptMap, hfx, hmsg]; rfl⟩

/-- A concrete prediction payload with a malformed `tournament_id`. -/
def badPrediction : Prediction :=
  { tournament_id := "nothex", user := "carol", direction := "down"
    amount := 1, created_at := none }

/-- The store after inserting `samplePrediction` into `sampleDB`. -/
def afterPredictionDB : DB :=
  ⟨[sampleTournamentDoc], [docOfPrediction (oidOf 1) samplePrediction], 2⟩

/-- C1: creating a tournament from a valid payload and then listing with no
filter yields a projection matching the payload field-for-field (timestamps
via their ISO rendering), with the store-assigned id and with `status`
defaulted to `"upcoming"` when the payload omitted it. -/
theorem create_then_list_matches_payload (t : Tournament) (h : t.valid) :
    list_tournaments (create_tournament emptyDB t).2 none =
      .ok [{ id := oidOf 0, title := t.title, asset := t.asset
             start_time := t.start_time.isoformat, end_time := t.end_time.isoformat
             entry_fee := t.entry_fee, prize_pool := t.prize_pool
             status := t.status.getD "upcoming" }] := by
  rcases t with ⟨title, asset, st, en, fee, pool, status⟩
  cases status <;> rfl

/-- Witness for C1 at the concrete payload `samplePayload`. -/
theorem create_then_list_matches_payload_witness :
    samplePayload.valid ∧
      list_tournaments (create_tournament emptyDB samplePayload).2 none =
        .ok [{ id := oidOf 0, title := samplePayload.title, asset := samplePayload.asset
               start_time := samplePayload.start_time.isoformat
               end_time := samplePayload.end_time.isoformat
               entry_fee := samplePayload.entry_fee, prize_pool := samplePayload.prize_pool
               status := samplePayload.status.getD "upcoming" }] :=
  ⟨by decide, create_then_list_matches_payload samplePayload (by decide)⟩

/-- C2: a successful `POST /api/predictions` implies the referenced
tournament existed in the store at that moment — the lookup precedes the
insert — and the new state differs only by the appended prediction
document, which carries the payload's `tournament_id`. -/
theorem prediction_insert_requires_existing_tournament
    (db : DB) (p : Prediction) (i : String) (db' : DB)
    (h : create_prediction db p = (.ok i, db')) :
    (∃ t ∈ db.tournaments, parseObjectId p.tournament_id = some t.oid) ∧
      db'.predictions = db.predictions ++ [docOfPrediction (oidOf db.counter) p] := by
  simp only [create_prediction] at h
  split at h
  next => simp at h
  next oid hp =>
    split at h
    next => simp at h
    next t hf =>
      simp only [DB.insertPrediction, Prod.mk.injEq] at h
      refine ⟨⟨t, List.mem_of_find?_eq_some hf, ?_⟩, ?_⟩
      · have hpred : (t.oid == oid) = true := by simpa using List.find?_some hf
        rw [hp, eq_of_beq hpred]
      · rw [← h.2]

/-- Witness for C2 at a concrete store and payload. -/
theorem prediction_insert_requires_existing_tournament_witness :
    (∃ t ∈ sampleDB.tournaments, parseObjectId samplePrediction.tournament_id = some t.oid) ∧
      afterPredictionDB.predictions =
        sampleDB.predictions ++ [docOfPrediction (oidOf sampleDB.counter) samplePrediction] :=
  prediction_insert_requires_existing_tournament sampleDB samplePrediction
    (oidOf 1) afterPredictionDB (by rfl)

/-- C3: a `tournament_id` that is not a 24-hex ObjectId makes
`POST /api/predictions` answer 400 with detail "Invalid tournament id",
whatever the other fields and the store contents, and leaves the store
unchanged. -/
theorem invalid_tournament_id_yields_400 (db : DB) (p : Prediction)
    (h : isValidObjectId p.tournament_id = false) :
    create_prediction db p = (.error ⟨400, "Invalid tournament id"⟩, db) := by
  simp [create_prediction, parseObjectId, h]

/-- Witness for C3 at the concrete payload `badPrediction`. -/
theorem invalid_tournament_id_yields_400_witness :
    isValidObjectId badPrediction.tournament_id = false ∧
      create_prediction emptyDB badPrediction =
        (.error ⟨400, "Invalid tournament id"⟩, emptyDB) :=
  ⟨by decide, invalid_tournament_id_yields_400 emptyDB badPrediction (by decide)⟩

/-- C4: a well-formed `tournament_id` that matches no stored tournament
makes `POST /api/predictions` answer 404 with detail
"Tournament not found", and leaves the store unchanged. -/
theorem missing_tournament_yields_404 (db : DB) (p : Prediction) (oid : String)
    (hp : parseObjectId p.tournament_id = some oid)
    (habs : ∀ t ∈ db.tournaments, t.oid ≠ oid) :
    create_prediction db p = (.error ⟨404, "Tournament not found"⟩, db) := by
  have hf : db.tournaments.find? (fun t => t.oid == oid) = none := by
    rw [List.find?_eq_none]
    intro t ht
    simpa using habs t ht
  simp [create_prediction, hp, hf]

/-- Witness for C4: `samplePrediction` against the empty store. -/
theorem missing_tournament_yields_404_witness :
    parseObjectId samplePrediction.tournament_id = some sampleOid ∧
      (∀ t ∈ emptyDB.tournaments, t.oid ≠ sampleOid) ∧
      create_prediction emptyDB samplePrediction =
        (.error ⟨404, "Tournament not found"⟩, emptyDB) :=
  ⟨by decide, by decide,
    missing_tournament_yields_404 emptyDB samplePrediction sampleOid
      (by decide) (by decide)⟩

/-- What a successful `TournamentOut` construction says about the source
document, field by field. -/
theorem projectTournament_ok_spec (d : TournamentDoc) (o : TournamentOut)
    (h : projectTournament d = .ok o) :
    (∃ v, d.title = some (some v) ∧ o.title = v) ∧
    (∃ v, d.asset = some (some v) ∧ o.asset = v) ∧
    getNum d.entry_fee = .ok o.entry_fee ∧
    getNum d.prize_pool = .ok o.prize_pool ∧
    o.start_time = timeStr d.start_time ∧
    o.end_time = timeStr d.end_time ∧
    getStatus d.status = .ok o.status ∧
    o.id = d.oid := by
  simp only [projectTournament, Bind.bind, Except.bind] at h
  split at h
  next => exact absurd h (by simp)
  next fee hfee =>
  split at h
  next => exact absurd h (by simp)
  next pool hpool =>
  split at h
  next => exact absurd h (by simp)
  next title htitle =>
  split at h
  next => exact absurd h (by simp)
  next asset hasset =>
  split at h
  next => exact absurd h (by simp)
  next stat hstat =>
  simp only [pure, Except.pure, Except.ok.injEq] at h
  subst h
  refine ⟨?_, ?_, hfee, hpool, rfl, rfl, hstat, rfl⟩
  · match hd : d.title with
    | some (some v) =>
      rw [hd] at htitle
      exact ⟨v, rfl, (by simpa [getStr] using htitle : v = title).symm⟩
    | none => rw [hd] at htitle; simp [getStr] at htitle
    | some none => rw [hd] at htitle; simp [getStr] at htitle
  · match hd : d.asset with
    | some (some v) =>
      rw [hd] at hasset
      exact ⟨v, rfl, (by simpa [getStr] using hasset : v = asset).symm⟩
    | none => rw [hd] at hasset; simp [getStr] at hasset
    | some none => rw [hd] at hasset; simp [getStr] at hasset

/-- A timestamp field that `d.get` sees as `None` renders as `""`. -/
theorem timeStr_of_pyGet_none (f : DField Timestamp) (h : f.pyGet = none) :
    timeStr f = "" := by
  match f with
  | none => rfl
  | some none => rfl
  | some (some t) => simp [DField.pyGet, Option.join] at h

/-- A successful tournament listing pairs the filtered documents with
their projections, in order. -/
theorem list_tournaments_ok (db : DB) (s : Option String) (outs : List TournamentOut)
    (h : list_tournaments db s = .ok outs) :
    List.Forall₂ (fun d o => projectTournament d = .ok o)
      (db.tournaments.filter (matchesFilter (filter_q s))) outs := by
  unfold list_tournaments at h
  split at h
  next outs' heq =>
    injection h with h
    subst h
    exact exceptMap_ok_forall₂ _ _ _ heq
  next => exact absurd h (by simp)

/-- C5 (amended): a tournament document that projects successfully has its
missing numeric fields coerced to `0`, its present numeric fields carried
over, its timestamps rendered in ISO form when present and as `""` when
missing or null — but a present-and-null numeric field never projects (the
`float(None)` call raises instead, failing the whole request with 500). -/
theorem tournament_projection_totality (d : TournamentDoc) (o : TournamentOut)
    (h : projectTournament d = .ok o) :
    (d.entry_fee = none → o.entry_fee = 0) ∧
    (d.prize_pool = none → o.prize_pool = 0) ∧
    (∀ v, d.entry_fee = some (some v) → o.entry_fee = v) ∧
    (∀ v, d.prize_pool = some (some v) → o.prize_pool = v) ∧
    d.entry_fee ≠ some none ∧
    d.prize_pool ≠ some none ∧
    (d.start_time.pyGet = none → o.start_time = "") ∧
    (∀ t, d.start_time = some (some t) → o.start_time = t.isoformat) ∧
    (d.end_time.pyGet = none → o.end_time = "") ∧
    (∀ t, d.end_time = some (some t) → o.end_time = t.isoformat) := by
  obtain ⟨-, -, hfee, hpool, hst, hen, -, -⟩ := projectTournament_ok_spec d o h
  refine ⟨?_, ?_, ?_, ?_, ?_, ?_, ?_, ?_, ?_, ?_⟩
  · intro hd; rw [hd] at hfee; simpa [getNum] using hfee.symm
  · intro hd; rw [hd] at hpool; simpa [getNum] using hpool.symm
  · intro v hd; rw [hd] at hfee; simpa [getNum] using hfee.symm
  · intro v hd; rw [hd] at hpool; simpa [getNum] using hpool.symm
  · intro hd; rw [hd] at hfee; simp [getNum] at hfee
  · intro hd; rw [hd] at hpool; simp [getNum] at hpool
  · intro hd; rw [hst]; exact timeStr_of_pyGet_none _ hd
  · intro t hd; rw [hst, hd]; rfl
  · intro hd; rw [hen]; exact timeStr_of_pyGet_none _ hd
  · intro t hd; rw [hen, hd]; rfl

/-- Witness for C5 (amended) at the concrete document `sampleTournamentDoc`. -/
theorem tournament_projection_totality_witness :
    (sampleTournamentDoc.entry_fee = none →
        (⟨sampleOid, "BTC Weekly", "BTC", "1970-01-01T00:00:100", "1970-01-01T00:00:200",
          10, 1000, "upcoming"⟩ : TournamentOut).entry_fee = 0) ∧
    (sampleTournamentDoc.prize_pool = none →
        (⟨sampleOid, "BTC Weekly", "BTC", "1970-01-01T00:00:100", "1970-01-01T00:00:200",
          10, 1000, "upcoming"⟩ : TournamentOut).prize_pool = 0) ∧
    (∀ v, sampleTournamentDoc.entry_fee = some (some v) →
        (⟨sampleOid, "BTC Weekly", "BTC", "1970-01-01T00:00:100", "1970-01-01T00:00:200",
          10, 1000, "upcoming"⟩ : TournamentOut).entry_fee = v) ∧
    (∀ v, sampleTournamentDoc.prize_pool = some (some v) →
        (⟨sampleOid, "BTC Weekly", "BTC", "1970-01-01T00:00:100", "1970-01-01T00:00:200",
          10, 1000, "upcoming"⟩ : TournamentOut).prize_pool = v) ∧
    sampleTournamentDoc.entry_fee ≠ some none ∧
    sampleTournamentDoc.prize_pool ≠ some none ∧
    (sampleTournamentDoc.start_time.pyGet = none →
        (⟨sampleOid, "BTC Weekly", "BTC", "1970-01-01T00:00:100", "1970-01-01T00:00:200",
          10, 1000, "upcoming"⟩ : TournamentOut).start_time = "") ∧
    (∀ t, sampleTournamentDoc.start_time = some (some t) →
        (⟨sampleOid, "BTC Weekly", "BTC", "1970-01-01T00:00:100", "1970-01-01T00:00:200",
          10, 1000, "upcoming"⟩ : TournamentOut).start_time = t.isoformat) ∧
    (sampleTournamentDoc.end_time.pyGet = none →
        (⟨sampleOid, "BTC Weekly", "BTC", "1970-01-01T00:00:100", "1970-01-01T00:00:200",
          10, 1000, "upcoming"⟩ : TournamentOut).end_time = "") ∧
    (∀ t, sampleTournamentDoc.end_time = some (some t) →
        (⟨sampleOid, "BTC Weekly", "BTC", "1970-01-01T00:00:100", "1970-01-01T00:00:200",
          10, 1000, "upcoming"⟩ : TournamentOut).end_time = t.isoformat) :=
  tournament_projection_totality sampleTournamentDoc _ (by rfl)

/-- C5 counterexample: a stored null `entry_fee` is not coerced to `0.0`;
the projection raises and the whole request answers 500. -/
theorem tournament_null_fee_counterexample :
    list_tournaments nullFeeDB none = .error ⟨500, floatNoneMsg⟩ := by rfl

/-- C6: the prediction projection handles absence asymmetrically to the
tournament one — a missing `amount` is coerced to `0` exactly as there,
but a `created_at` that `d.get` sees as `None` becomes an explicit null
(not `""`), while a present timestamp is rendered in ISO form. -/
theorem prediction_projection_asymmetry (d : PredictionDoc) (o : PredictionOut)
    (h : projectPrediction d = .ok o) :
    (d.amount = none → o.amount = 0) ∧
    (d.created_at.pyGet = none → o.created_at = none) ∧
    (∀ t, d.created_at = some (some t) → o.created_at = some t.isoformat) := by
  simp only [projectPrediction, Bind.bind, Except.bind] at h
  split at h
  next => exact absurd h (by simp)
  next amt hamt =>
  simp only [pure, Except.pure, Except.ok.injEq] at h
  subst h
  refine ⟨?_, ?_, ?_⟩
  · intro hd; rw [hd] at hamt; simpa [getNum] using hamt.symm
  · intro hd; simp [hd]
  · intro t hd; rw [hd]; rfl

/-- Witness for C6 at the concrete document `samplePredictionDoc`. -/
theorem prediction_projection_asymmetry_witness :
    (samplePredictionDoc.amount = none →
        (⟨"dddddddddddddddddddddddd", some sampleOid, some "bob", some "down", 0, none⟩ :
          PredictionOut).amount = 0) ∧
    (samplePredictionDoc.created_at.pyGet = none →
        (⟨"dddddddddddddddddddddddd", some sampleOid, some "bob", some "down", 0, none⟩ :
          PredictionOut).created_at = none) ∧
    (∀ t, samplePredictionDoc.created_at = some (some t) →
        (⟨"dddddddddddddddddddddddd", some sampleOid, some "bob", some "down", 0, none⟩ :
          PredictionOut).created_at = some t.isoformat) :=
  prediction_projection_asymmetry samplePredictionDoc _ (by rfl)

/-- C7: a successful `GET /api/tournaments?status=active` pairs, in order,
exactly the stored documents whose `status` equals `"active"` with their
projections, while a successful unfiltered `GET /api/tournaments` pairs
all stored documents with theirs. -/
theorem list_tournaments_filtering (db : DB) (outsA outsN : List TournamentOut)
    (hA : list_tournaments db (some "active") = .ok outsA)
    (hN : list_tournaments db none = .ok outsN) :
    List.Forall₂ (fun d o => projectTournament d = .ok o)
      (db.tournaments.filter (fun d => d.status == some (some "active"))) outsA ∧
    List.Forall₂ (fun d o => projectTournament d = .ok o) db.tournaments outsN := by
  constructor
  · have h2 := list_tournaments_ok db _ _ hA
    have hpred : matchesFilter (filter_q (some "active")) =
        fun d => d.status == some (some "active") := by
      funext d; rfl
    rwa [hpred] at h2
  · have h2 := list_tournaments_ok db _ _ hN
    have hpred : matchesFilter (filter_q none) = fun _ => true := by
      funext d; rfl
    rwa [hpred, List.filter_true] at h2

/-- Projection of `sampleTournamentDoc`. -/
def sampleOut : TournamentOut :=
  ⟨sampleOid, "BTC Weekly", "BTC", "1970-01-01T00:00:100", "1970-01-01T00:00:200",
    10, 1000, "upcoming"⟩

/-- Projection of `activeTournamentDoc`. -/
def activeOut : TournamentOut :=
  ⟨"aaaaaaaaaaaaaaaaaaaaaaaa", "ETH Daily", "ETH", "1970-01-01T00:00:1",
    "1970-01-01T00:00:2", 3, 4, "active"⟩

/-- Witness for C7 on `mixedDB`: the filtered listing returns only the
active document; the unfiltered one returns both. -/
theorem list_tournaments_filtering_witness :
    List.Forall₂ (fun d o => projectTournament d = .ok o)
      (mixedDB.tournaments.filter (fun d => d.status == some (some "active"))) [activeOut] ∧
    List.Forall₂ (fun d o => projectTournament d = .ok o)
      mixedDB.tournaments [sampleOut, activeOut] :=
  list_tournaments_filtering mixedDB [activeOut] [sampleOut, activeOut] (by rfl) (by rfl)

/-- C8: whenever `POST /api/predictions` answers an error (400 or 404),
no document has been inserted: the store after the request is the store
before it. -/
theorem failed_prediction_is_side_effect_free (db : DB) (p : Prediction) (e : Err)
    (h : (create_prediction db p).1 = .error e) :
    (create_prediction db p).2 = db := by
  cases hp : parseObjectId p.tournament_id with
  | none => simp [create_prediction, hp]
  | some oid =>
    cases hf : db.tournaments.find? (fun t => t.oid == oid) with
    | none => simp [create_prediction, hp, hf]
    | some t => simp [create_prediction, hp, hf] at h

/-- Witness for C8 at a concrete failing request. -/
theorem failed_prediction_is_side_effect_free_witness :
    (create_prediction emptyDB badPrediction).1 =
        .error ⟨400, "Invalid tournament id"⟩ ∧
      (create_prediction emptyDB badPrediction).2 = emptyDB :=
  ⟨by rfl, failed_prediction_is_side_effect_free emptyDB badPrediction
    ⟨400, "Invalid tournament id"⟩ (by rfl)⟩

/-- C9: the `/test` diagnostics handler returns a response for every state
of the store handle — unset handle, failing metadata call included — and
its `collections` field holds at most the first 10 collection names; the
failure of the metadata call is reported inside the response (truncated to
80 characters) instead of propagating. -/
theorem test_database_defensive (dbh : Option DBHandle) (u : Bool)
    (nm : Option String) (e : String) :
    (test_database dbh u).collections.length ≤ 10 ∧
    (test_database dbh u).backend = "✅ Running" ∧
    (test_database none u).database = "⚠️  Available but not initialized" ∧
    (test_database (some ⟨nm, .error e⟩) u).database =
      "⚠️  Connected but Error: " ++ e.take 80 := by
  refine ⟨?_, ?_, rfl, rfl⟩
  · rcases dbh with - | ⟨nm', cns⟩
    · simp [test_database]
    · cases cns with
      | ok cs => simp [test_database, List.length_take]
      | error e' => simp [test_database]
  · rcases dbh with - | ⟨nm', cns⟩
    · rfl
    · cases cns <;> rfl

/-- C10: if any stored tournament document selected by the filter has a
missing or null `title` or `asset`, the whole `GET /api/tournaments`
request answers 500 — no partial list, no coerced value. -/
theorem null_text_field_fails_whole_listing (db : DB) (s : Option String)
    (d : TournamentDoc)
    (hmem : d ∈ db.tournaments.filter (matchesFilter (filter_q s)))
    (hbad : d.title.pyGet = none ∨ d.asset.pyGet = none) :
    ∃ msg, list_tournaments db s = .error ⟨500, msg⟩ := by
  have hproj : ∃ m, projectTournament d = .error m := by
    cases hpt : projectTournament d with
    | error m => exact ⟨m, rfl⟩
    | ok o =>
      exfalso
      obtain ⟨⟨v, hv, -⟩, ⟨w, hw, -⟩, -⟩ := projectTournament_ok_spec d o hpt
      rcases hbad with hb | hb
      · rw [hv] at hb; simp [DField.pyGet, Option.join] at hb
      · rw [hw] at hb; simp [DField.pyGet, Option.join] at hb
  rcases hproj with ⟨m, hm⟩
  rcases exceptMap_error_of_mem projectTournament hmem hm with ⟨msg, hmsg⟩
  exact ⟨msg, by simp [list_tournaments, hmsg]⟩

/-- Witness for C10: a store whose only document lacks a `title`. -/
theorem null_text_field_fails_whole_listing_witness :
    noTitleDoc ∈ noTitleDB.tournaments.filter (matchesFilter (filter_q none)) ∧
      (noTitleDoc.title.pyGet = none ∨ noTitleDoc.asset.pyGet = none) ∧
      ∃ msg, list_tournaments noTitleDB none = .error ⟨500, msg⟩ :=
  ⟨by decide, by decide,
    null_text_field_fails_whole_listing noTitleDB none noTitleDoc (by decide) (by decide)⟩
